import Mathlib

/-!
Verification of the MCP tool/prompt broker layer:
`src/app/servers/mcp_inventory_client.py` (MCPShopperToolsClient) and
`src/app/servers/mcp_inventory_server.py` (FastMCP dispatch table).

The embedding keeps the source structure: pure decision logic is translated
function-for-function; network and file I/O appear as explicit parameters
(the upstream result, the file store, a rendering function); the process-wide
singleton is explicit state passing; the asyncio interleaving of the
singleton initializer is a small step machine.
-/

namespace MCPBroker

/-- JSON values as produced by Python's `json.loads`: integral numeric
literals become integers; non-integral or special numeric literals are kept
with their literal text (their float value is irrelevant to all claims). -/
inductive Json where
  | null : Json
  | bool (b : Bool) : Json
  | int (n : Int) : Json
  | float (raw : String) : Json
  | str (s : String) : Json
  | arr (xs : List Json) : Json
  | obj (kvs : List (String × Json)) : Json

/-- The opening-brace character of a JSON object. -/
def lbraceChar : Char := Char.ofNat 123

/-- The closing-brace character of a JSON object. -/
def rbraceChar : Char := Char.ofNat 125

/-- JSON whitespace accepted between tokens by Python's `json.loads`. -/
def isJsonWs (c : Char) : Bool :=
  c = ' ' || c = '\t' || c = '\n' || c = '\r'

/-- Drop leading JSON whitespace. -/
def skipWs : List Char → List Char
  | [] => []
  | c :: cs => if isJsonWs c then skipWs cs else c :: cs

/-- Digit test for JSON number literals (code points 48–57). -/
def isDigitChar (c : Char) : Bool :=
  48 ≤ c.toNat && c.toNat ≤ 57

/-- Hex-digit value for `\uXXXX` escapes, by code-point ranges. -/
def hexVal (c : Char) : Option Nat :=
  let n := c.toNat
  if 48 ≤ n && n ≤ 57 then some (n - 48)
  else if 97 ≤ n && n ≤ 102 then some (n - 87)
  else if 65 ≤ n && n ≤ 70 then some (n - 55)
  else none

/-- Parse the body of a JSON string literal (after the opening quote),
with Python's strict rules: escapes are decoded, unescaped control
characters are rejected, and the result is the decoded string plus the
remaining input after the closing quote. -/
def parseStringBody : List Char → List Char → Option (String × List Char)
  | _, [] => none
  | acc, c :: rest =>
    if c = '"' then
      some (String.mk acc.reverse, rest)
    else if c = '\\' then
      match rest with
      | [] => none
      | e :: rest2 =>
        if e = '"' then parseStringBody ('"' :: acc) rest2
        else if e = '\\' then parseStringBody ('\\' :: acc) rest2
        else if e = '/' then parseStringBody ('/' :: acc) rest2
        else if e = 'b' then parseStringBody (Char.ofNat 8 :: acc) rest2
        else if e = 'f' then parseStringBody (Char.ofNat 12 :: acc) rest2
        else if e = 'n' then parseStringBody ('\n' :: acc) rest2
        else if e = 'r' then parseStringBody ('\r' :: acc) rest2
        else if e = 't' then parseStringBody ('\t' :: acc) rest2
        else if e = 'u' then
          match rest2 with
          | h1 :: h2 :: h3 :: h4 :: rest6 =>
            match hexVal h1, hexVal h2, hexVal h3, hexVal h4 with
            | some a, some b, some cc, some d =>
              parseStringBody (Char.ofNat (((a * 16 + b) * 16 + cc) * 16 + d) :: acc) rest6
            | _, _, _, _ => none
          | _ => none
        else none
    else if c.toNat < 32 then none
    else parseStringBody (c :: acc) rest

/-- Split off the maximal leading run of digits. -/
def takeDigits (cs : List Char) : List Char × List Char :=
  cs.span isDigitChar

/-- Numeric value of a digit run, most significant first. -/
def digitsToNat (acc : Nat) : List Char → Nat
  | [] => acc
  | d :: ds => digitsToNat (acc * 10 + (d.toNat - 48)) ds

/-- Parse a JSON number literal per `json.loads`: optional minus, an
integer part with no leading zeros, optional fraction and exponent; a
literal with fraction or exponent parses as a float and keeps its text. -/
def parseNumber (cs : List Char) : Option (Json × List Char) :=
  let (neg, cs1) :=
    match cs with
    | '-' :: rest => (true, rest)
    | _ => (false, cs)
  match cs1 with
  | [] => none
  | c :: _ =>
    if !isDigitChar c then none
    else
      let (intDigits, cs2) :=
        if c = '0' then ([c], cs1.tail)
        else takeDigits cs1
      let (fracDigits, cs3) :=
        match cs2 with
        | '.' :: rest =>
          let (ds, r) := takeDigits rest
          if ds.isEmpty then (([] : List Char), cs2) else ('.' :: ds, r)
        | _ => (([] : List Char), cs2)
      let (expDigits, cs4) :=
        match cs3 with
        | e :: rest =>
          if e = 'e' || e = 'E' then
            match rest with
            | s :: rest2 =>
              if s = '+' || s = '-' then
                let (ds, r) := takeDigits rest2
                if ds.isEmpty then (([] : List Char), cs3) else (e :: s :: ds, r)
              else
                let (ds, r) := takeDigits rest
                if ds.isEmpty then (([] : List Char), cs3) else (e :: ds, r)
            | [] => (([] : List Char), cs3)
          else (([] : List Char), cs3)
        | [] => (([] : List Char), cs3)
      if fracDigits.isEmpty && expDigits.isEmpty then
        let n : Int := Int.ofNat (digitsToNat 0 intDigits)
        some (.int (if neg then -n else n), cs4)
      else
        let lit := (if neg then ['-'] else []) ++ intDigits ++ fracDigits ++ expDigits
        some (.float (String.mk lit), cs4)

/-- Check that the input starts with the given literal characters. -/
def expectLit : List Char → List Char → Option (List Char)
  | [], rest => some rest
  | l :: ls, c :: rest => if c = l then expectLit ls rest else none
  | _ :: _, [] => none

mutual

/-- Parse one JSON value (recursive descent with fuel; fuel bounds the
nesting depth, which is bounded by the input length). -/
def parseValue : Nat → List Char → Option (Json × List Char)
  | 0, _ => none
  | _ + 1, [] => none
  | fuel + 1, c :: rest =>
    if c = 'n' then (expectLit ['u', 'l', 'l'] rest).map (fun r => (.null, r))
    else if c = 't' then (expectLit ['r', 'u', 'e'] rest).map (fun r => (.bool true, r))
    else if c = 'f' then (expectLit ['a', 'l', 's', 'e'] rest).map (fun r => (.bool false, r))
    else if c = 'N' then (expectLit ['a', 'N'] rest).map (fun r => (.float "NaN", r))
    else if c = 'I' then
      (expectLit ['n', 'f', 'i', 'n', 'i', 't', 'y'] rest).map
        (fun r => (.float "Infinity", r))
    else if c = '-' && (match rest with | 'I' :: _ => true | _ => false) then
      (expectLit ['I', 'n', 'f', 'i', 'n', 'i', 't', 'y'] rest).map
        (fun r => (.float "-Infinity", r))
    else if c = '"' then (parseStringBody [] rest).map (fun (s, r) => (.str s, r))
    else if c = '[' then
      match skipWs rest with
      | ']' :: r => some (.arr [], r)
      | cs => parseArrayItems fuel cs
    else if c = lbraceChar then
      match skipWs rest with
      | b :: r => if b = rbraceChar then some (.obj [], r) else parseObjectItems fuel (b :: r)
      | [] => none
    else parseNumber (c :: rest)

/-- Parse the comma-separated items of a JSON array (input positioned at
the first item), through the closing bracket. -/
def parseArrayItems : Nat → List Char → Option (Json × List Char)
  | 0, _ => none
  | fuel + 1, cs =>
    match parseValue fuel cs with
    | none => none
    | some (v, rest) =>
      match skipWs rest with
      | ',' :: r =>
        match parseArrayItems fuel (skipWs r) with
        | some (.arr vs, r2) => some (.arr (v :: vs), r2)
        | _ => none
      | ']' :: r => some (.arr [v], r)
      | _ => none

/-- Parse the comma-separated `"key": value` pairs of a JSON object
(input positioned at the first key), through the closing brace. -/
def parseObjectItems : Nat → List Char → Option (Json × List Char)
  | 0, _ => none
  | fuel + 1, cs =>
    match cs with
    | '"' :: rest =>
      match parseStringBody [] rest with
      | none => none
      | some (k, rest2) =>
        match skipWs rest2 with
        | ':' :: rest3 =>
          match parseValue fuel (skipWs rest3) with
          | none => none
          | some (v, rest4) =>
            match skipWs rest4 with
            | ',' :: r =>
              match parseObjectItems fuel (skipWs r) with
              | some (.obj kvs, r2) => some (.obj ((k, v) :: kvs), r2)
              | _ => none
            | b :: r => if b = rbraceChar then some (.obj [(k, v)], r) else none
            | [] => none
        | _ => none
    | _ => none

end

/-- Model of Python's `json.loads`: parse one JSON document, allowing
surrounding whitespace, requiring the whole input to be consumed;
`none` models a raised `json.JSONDecodeError`. -/
def json_loads (s : String) : Option Json :=
  match parseValue (s.length + 1) (skipWs s.data) with
  | some (v, rest) => if skipWs rest = [] then some v else none
  | none => none

/-! ## Client side: `MCPShopperToolsClient` (mcp_inventory_client.py) -/

/-- One content block of a tool-call response envelope (`result_data.content`);
its payload is the block's `text` attribute. -/
structure ContentBlock where
  text : String

/-- A tool-call response envelope: an ordered sequence of content blocks. -/
structure ToolCallResponse where
  content : List ContentBlock

/-- The value `call_tool` hands back to its caller: either a parsed JSON
value (when `json.loads` succeeded) or a plain Python string. -/
inductive Decoded where
  | json (v : Json) : Decoded
  | str (s : String) : Decoded

/-- Log records emitted through `logger`. -/
inductive Log where
  | info (msg : String) : Log
  | warning (msg : String) : Log
  | error (msg : String) : Log
deriving DecidableEq

/-- The result-extraction logic of `MCPShopperToolsClient.call_tool`, after
the session has returned the envelope `result_data`.  `render` stands for
Python's `str(result_data)` (a library-defined rendering of the whole
envelope).  Mirrors the source: take `content[0].text` when `content` is a
non-empty list, else `str(result_data)`; the result is a string in both
branches, so try `json.loads` on it and fall back to the raw string on
`JSONDecodeError`/`ValueError`. -/
def call_tool (render : ToolCallResponse → String) (result_data : ToolCallResponse) : Decoded :=
  let result : String :=
    match result_data.content with
    | [] => render result_data
    | block :: _ => block.text
  match json_loads result with
  | some v => .json v
  | none => .str result

/-- The decoding contract as the specification words it: if the selected
string parses as JSON return the parsed value, otherwise return the raw
string unchanged; the selected string is the first block's text when
`content` is non-empty, else a rendering of the whole response. -/
def decode_spec (render : ToolCallResponse → String) (r : ToolCallResponse) : Decoded :=
  let payload : String :=
    if r.content.isEmpty then render r else (r.content.headD ⟨""⟩).text
  match json_loads payload with
  | some v => .json v
  | none => .str payload

/-- A tool descriptor as returned by `session.list_tools()`: name,
description, and JSON-Schema input schema. -/
structure Tool where
  name : String
  description : String
  inputSchema : Json

/-- A Python exception value, identified by its message text. -/
abbrev PyExn := String

/-- The `function` object of an OpenAI-format tool spec. -/
structure FunctionField where
  name : String
  description : String
  parameters : Json

/-- An OpenAI-format tool spec `{type: "function", function: {...}}` as
built by `get_mcp_tools_llm`. -/
structure FunctionSpec where
  type : String
  function : FunctionField

/-- `MCPShopperToolsClient.list_tools`: the upstream session either yields
the tool list or raises.  On success the tools are returned; on any
exception the error is logged (`logger.error`) and the same exception is
re-raised.  The upstream outcome is the explicit argument `upstream`;
the result pairs the emitted log records with the returned-or-raised
outcome. -/
def list_tools (upstream : Except PyExn (List Tool)) :
    List Log × Except PyExn (List Tool) :=
  match upstream with
  | .ok tools =>
    ([.info "Listing available tools...",
      .info ("Found " ++ toString tools.length ++ " tools")], .ok tools)
  | .error e => ([.error ("Error listing tools: " ++ e)], .error e)

/-- `MCPShopperToolsClient.get_mcp_tools_llm`: call `list_tools`, map each
tool to `{type: "function", function: {name, description, parameters:
inputSchema}}`; on any exception log it and return `[]`. -/
def get_mcp_tools_llm (upstream : Except PyExn (List Tool)) :
    List Log × List FunctionSpec :=
  match list_tools upstream with
  | (logs, .ok tools) =>
    (logs,
      tools.map (fun tool =>
        { type := "function"
          function :=
            { name := tool.name
              description := tool.description
              parameters := tool.inputSchema } }))
  | (logs, .error e) =>
    (logs ++ [.error ("Error getting MCP tools in LLM format: " ++ e)], [])

/-- The `content` object of one prompt message; its payload is `text`. -/
structure MessageContent where
  text : String

/-- One message of a prompt response (`prompt_result.messages[i]`). -/
structure PromptMessage where
  content : MessageContent

/-- A prompt response envelope as returned by `session.get_prompt`. -/
structure PromptResponse where
  messages : List PromptMessage

/-- `MCPShopperToolsClient.get_agent_prompt`, after the session returned
`prompt_result`: if `messages` is non-empty, return the first message's
content text; otherwise log a warning and return the empty string. -/
def get_agent_prompt (agent_id : String) (prompt_result : PromptResponse) :
    List Log × String :=
  let fetchLog : Log := .info ("Fetching prompt for agent ID: " ++ agent_id)
  match prompt_result.messages with
  | msg :: _ => ([fetchLog], msg.content.text)
  | [] =>
    ([fetchLog, .warning ("Prompt '" ++ agent_id ++ "' returned no messages")], "")

/-! ## Server side: FastMCP dispatch table (mcp_inventory_server.py) -/

/-- A Python value as returned by the server's external collaborator
functions (`product_recommendations`, `inventory_check`,
`calculate_discount`, `create_image`): any JSON-serializable value, with
strings distinguished because the handlers test `isinstance(result, str)`. -/
inductive PyValue where
  | none_ : PyValue
  | bool (b : Bool) : PyValue
  | int (n : Int) : PyValue
  | str (s : String) : PyValue
  | list (xs : List PyValue) : PyValue
  | dict (kvs : List (String × PyValue)) : PyValue

/-- `isinstance(v, str)` for a collaborator return value. -/
def PyValue.isStr : PyValue → Bool
  | .str _ => true
  | _ => false

/-- Escape one character the way `json.dumps` (default `ensure_ascii=True`)
renders it inside a string literal. -/
def dumpsChar (c : Char) : String :=
  if c = '"' then "\\\""
  else if c = '\\' then "\\\\"
  else if c = '\n' then "\\n"
  else if c = '\t' then "\\t"
  else if c = '\r' then "\\r"
  else if c = Char.ofNat 8 then "\\b"
  else if c = Char.ofNat 12 then "\\f"
  else if c.toNat < 32 || c.toNat > 126 then
    let hexDigit (n : Nat) : Char :=
      if n < 10 then Char.ofNat ('0'.toNat + n) else Char.ofNat ('a'.toNat + n - 10)
    let n := c.toNat % 65536
    String.mk ['\\', 'u', hexDigit (n / 4096), hexDigit (n / 256 % 16),
               hexDigit (n / 16 % 16), hexDigit (n % 16)]
  else String.mk [c]

/-- Render a Python string as a `json.dumps` string literal. -/
def dumpsString (s : String) : String :=
  "\"" ++ String.join (s.data.map dumpsChar) ++ "\""

mutual

/-- Model of Python's `json.dumps` with default separators, applied to a
collaborator return value. -/
def json_dumps : PyValue → String
  | .none_ => "null"
  | .bool true => "true"
  | .bool false => "false"
  | .int n => toString n
  | .str s => dumpsString s
  | .list xs => "[" ++ dumpsList xs ++ "]"
  | .dict kvs => "\x7b" ++ dumpsDict kvs ++ "\x7d"

/-- Comma-separated rendering of a list's elements. -/
def dumpsList : List PyValue → String
  | [] => ""
  | [v] => json_dumps v
  | v :: vs => json_dumps v ++ ", " ++ dumpsList vs

/-- Comma-separated rendering of a dict's key-value pairs. -/
def dumpsDict : List (String × PyValue) → String
  | [] => ""
  | [(k, v)] => dumpsString k ++ ": " ++ json_dumps v
  | (k, v) :: kvs => dumpsString k ++ ": " ++ json_dumps v ++ ", " ++ dumpsDict kvs

end

/-- The serialization step shared by all four tool handlers:
`json.dumps(result) if not isinstance(result, str) else result`. -/
def serializeResult (result : PyValue) : String :=
  match result with
  | .str s => s
  | v => json_dumps v

/-- Server tool `get_product_recommendations(question)`: delegate to the
external collaborator `product_recommendations`, then serialize. -/
def get_product_recommendations (product_recommendations : String → PyValue)
    (question : String) : String :=
  serializeResult (product_recommendations question)

/-- Server tool `check_product_inventory(product_id)`: build
`{"id": product_id}`, delegate to `inventory_check`, then serialize. -/
def check_product_inventory (inventory_check : PyValue → PyValue)
    (product_id : String) : String :=
  serializeResult (inventory_check (.dict [("id", .str product_id)]))

/-- Server tool `get_customer_discount(customer_id)`: delegate to
`calculate_discount`, then serialize. -/
def get_customer_discount (calculate_discount : String → PyValue)
    (customer_id : String) : String :=
  serializeResult (calculate_discount customer_id)

/-- Server tool `generate_product_image(prompt, size)`: delegate to
`create_image`, then serialize. -/
def generate_product_image (create_image : String → String → PyValue)
    (prompt : String) (size : String) : String :=
  serializeResult (create_image prompt size)

/-- The server's `prompt_files` table mapping logical agent names to
template filenames. -/
def prompt_files : List (String × String) :=
  [("cora", "ShopperAgentPrompt.txt"),
   ("customer_loyalty", "CustomerLoyaltyAgentPrompt.txt"),
   ("discount_logic", "DiscountLogicPrompt.txt"),
   ("interior_designer", "InteriorDesignAgentPrompt.txt"),
   ("inventory", "InventoryAgentPrompt.txt")]

/-- Python's `str.lower()` on the agent name (ASCII case folding; the
lookup keys are all ASCII). -/
def py_lower (s : String) : String := String.mk (s.data.map Char.toLower)

/-- The server's `agentPrompt` prompt handler: lowercase the agent name,
look it up in `prompt_files`, read the mapped template file
(`read_prompt_file`, here the external file store `readFile`), or return
the descriptive unknown-name string.  -/
def agentPrompt (readFile : String → String) (agent_name : String) : String :=
  let agent_name_lower := py_lower agent_name
  match prompt_files.lookup agent_name_lower with
  | some filename => readFile filename
  | none =>
    "Unknown agent name: " ++ agent_name ++
      ". Valid options are: cora, customer_loyalty, discount_logic, interior_designer, inventory"

/-! ## The shared client instance and `get_mcp_client` -/

/-- The observable state of an `MCPShopperToolsClient` object: its server
URL and its `available_tools` cache. -/
structure MCPShopperToolsClient where
  server_url : String
  available_tools : List Tool

/-- `MCPShopperToolsClient.__init__`: `self.server_url = server_url or
"http://localhost:8000/sse"` (Python `or`: `None` and the empty string both
fall back to the default) and `self.available_tools = []`. -/
def MCPShopperToolsClient.init (server_url : Option String) : MCPShopperToolsClient :=
  { server_url :=
      match server_url with
      | some s => if s = "" then "http://localhost:8000/sse" else s
      | none => "http://localhost:8000/sse"
    available_tools := [] }

/-- The default value of `get_mcp_client`'s `server_url` parameter, as
written in the source. -/
def get_mcp_client_default_url : String := "http://localhost:8000/see"

/-- Whether `s` ends with the given string (Python `str.endswith`). -/
def strEndsWith (s tail : String) : Bool := tail.data.isSuffixOf s.data

/-- `get_mcp_client(server_url)` run to completion without interleaving:
the global `_mcp_client` is the explicit state.  If it is `None`, construct
the client from `server_url`, populate `available_tools` from the
tool-listing fetch (`fetched` is what `list_tools` returned), and store it;
otherwise return the stored instance.  Result: the returned client and the
new global state. -/
def get_mcp_client (fetched : List Tool) (server_url : String)
    (mcp_client : Option MCPShopperToolsClient) :
    MCPShopperToolsClient × Option MCPShopperToolsClient :=
  match mcp_client with
  | some c => (c, some c)
  | none =>
    let c := { MCPShopperToolsClient.init (some server_url) with available_tools := fetched }
    (c, some c)

/-! ### Interleaved first access to `get_mcp_client`

`get_mcp_client` is an `async def` with no lock.  Under asyncio, execution
between awaits is atomic; the body has exactly one suspension point, `await
_mcp_client.list_tools()`, which sits between the assignment of the global
`_mcp_client` and the population of its `available_tools`.  The machine
below runs two concurrent callers of `get_mcp_client`, each an instance of
the body, under an explicit schedule. -/

/-- Program counter of one caller of `get_mcp_client`: `entered` (about to
run the null check), `fetching` (suspended at the `await` of the
tool-listing fetch), `returned`. -/
inductive CallerPc where
  | entered : CallerPc
  | fetching : CallerPc
  | returned : CallerPc
deriving DecidableEq

/-- Global state of the two-caller interleaving: whether `_mcp_client` is
set, the shared object's `available_tools`, the number of tool-listing
fetches performed, and per caller its program counter and the
`available_tools` it saw on the instance it returned. -/
structure InitRace where
  clientSet : Bool
  clientTools : List Tool
  fetchCount : Nat
  pcA : CallerPc
  obsA : Option (List Tool)
  pcB : CallerPc
  obsB : Option (List Tool)

/-- Initial state: `_mcp_client = None`, both callers about to enter. -/
def InitRace.start : InitRace :=
  { clientSet := false, clientTools := [], fetchCount := 0
    pcA := .entered, obsA := none, pcB := .entered, obsB := none }

/-- One atomic step of one caller (`true` = caller A, `false` = caller B).
From `entered`: if `_mcp_client` is set, return it at once (observing its
current `available_tools`); otherwise assign `_mcp_client` to a fresh
client (whose `available_tools` is `[]`) and suspend into the `await` of
the fetch.  From `fetching`: the fetch completes (counted), the shared
object's `available_tools` is assigned, and the caller returns. -/
def initRaceStep (fetched : List Tool) (s : InitRace) (who : Bool) : InitRace :=
  if who then
    match s.pcA with
    | .entered =>
      if s.clientSet then { s with pcA := .returned, obsA := some s.clientTools }
      else { s with clientSet := true, clientTools := [], pcA := .fetching }
    | .fetching =>
      { s with fetchCount := s.fetchCount + 1, clientTools := fetched,
               pcA := .returned, obsA := some fetched }
    | .returned => s
  else
    match s.pcB with
    | .entered =>
      if s.clientSet then { s with pcB := .returned, obsB := some s.clientTools }
      else { s with clientSet := true, clientTools := [], pcB := .fetching }
    | .fetching =>
      { s with fetchCount := s.fetchCount + 1, clientTools := fetched,
               pcB := .returned, obsB := some fetched }
    | .returned => s

/-- Run the two callers under a schedule (list of caller choices). -/
def runInitRace (fetched : List Tool) (sched : List Bool) : InitRace :=
  sched.foldl (initRaceStep fetched) InitRace.start

/-- A concrete tool for the interleaving counterexample, shaped like the
server's first declared tool. -/
def sampleTool : Tool :=
  { name := "get_product_recommendations"
    description := "Search for product recommendations based on user query."
    inputSchema := .obj [("type", .str "object")] }

/-! ## Theorems -/

/-- C1: for every tool-call response, `call_tool` decodes it as the spec
states: the payload is the first content block's text when `content` is
non-empty, else a string rendering of the whole response; if the payload
parses as JSON the parsed value is returned, otherwise the raw string is
returned unchanged.  In particular the text `"42"` yields the integer 42
and the text `"hello world"` yields the string `"hello world"`. -/
theorem call_tool_decodes_per_spec (render : ToolCallResponse → String)
    (r : ToolCallResponse) :
    call_tool render r = decode_spec render r ∧
    call_tool render { content := [{ text := "42" }] } = .json (.int 42) ∧
    call_tool render { content := [{ text := "hello world" }] } = .str "hello world" := by
  refine ⟨?_, rfl, rfl⟩
  unfold call_tool decode_spec
  cases h : r.content with
  | nil => simp [h]
  | cons b bs => simp [h]

/-- C10: a response whose first content block's text is the empty string
decodes to the empty string: the content list is non-empty so the raw
text `""` is selected (not the whole-envelope rendering), and `json.loads`
fails on `""` so the raw-string fallback applies. -/
theorem call_tool_empty_text (render : ToolCallResponse → String)
    (rest : List ContentBlock) :
    call_tool render { content := { text := "" } :: rest } = .str "" := rfl

/-- C2: on a successful listing, `get_mcp_tools_llm` produces exactly one
FunctionSpec per tool descriptor, in the same order, each of the shape
`{type: "function", function: {name, description, parameters}}` with the
descriptor's name, description and input schema carried over verbatim. -/
theorem get_mcp_tools_llm_maps (tools : List Tool) :
    ((get_mcp_tools_llm (.ok tools)).2).length = tools.length ∧
    ∀ i : Nat,
      ((get_mcp_tools_llm (.ok tools)).2).get? i =
        (tools.get? i).map (fun t =>
          { type := "function"
            function :=
              { name := t.name, description := t.description
                parameters := t.inputSchema } }) := by
  constructor
  · simp [get_mcp_tools_llm, list_tools]
  · intro i
    simp [get_mcp_tools_llm, list_tools, List.get?_eq_getElem?, List.getElem?_map]

/-- C3: when the upstream listing fails with any exception,
`get_mcp_tools_llm` returns the empty list instead of propagating, while
`list_tools` itself logs the error and re-raises the same exception. -/
theorem listing_failure_policy (e : PyExn) :
    (get_mcp_tools_llm (.error e)).2 = [] ∧
    (list_tools (.error e)).2 = .error e ∧
    Log.error ("Error listing tools: " ++ e) ∈ (list_tools (.error e)).1 := by
  refine ⟨rfl, rfl, ?_⟩
  simp [list_tools]

/-- C4: `agentPrompt` maps each of the five case-insensitive agent
identifiers to the contents of its template file, and returns (never
raises) a descriptive string containing "Unknown agent name" for every
other name. -/
theorem agentPrompt_resolution (readFile : String → String) (agent_name : String) :
    (py_lower agent_name = "cora" →
      agentPrompt readFile agent_name = readFile "ShopperAgentPrompt.txt") ∧
    (py_lower agent_name = "customer_loyalty" →
      agentPrompt readFile agent_name = readFile "CustomerLoyaltyAgentPrompt.txt") ∧
    (py_lower agent_name = "discount_logic" →
      agentPrompt readFile agent_name = readFile "DiscountLogicPrompt.txt") ∧
    (py_lower agent_name = "interior_designer" →
      agentPrompt readFile agent_name = readFile "InteriorDesignAgentPrompt.txt") ∧
    (py_lower agent_name = "inventory" →
      agentPrompt readFile agent_name = readFile "InventoryAgentPrompt.txt") ∧
    (py_lower agent_name ∉
        ["cora", "customer_loyalty", "discount_logic", "interior_designer", "inventory"] →
      ∃ rest, agentPrompt readFile agent_name = "Unknown agent name" ++ rest) := by
  refine ⟨?_, ?_, ?_, ?_, ?_, ?_⟩ <;> intro h <;>
    simp only [agentPrompt, prompt_files]
  · rw [h]; rfl
  · rw [h]; rfl
  · rw [h]; rfl
  · rw [h]; rfl
  · rw [h]; rfl
  · simp only [List.mem_cons, List.not_mem_nil, or_false, not_or] at h
    obtain ⟨h1, h2, h3, h4, h5⟩ := h
    have e1 : (py_lower agent_name == "cora") = false := beq_eq_false_iff_ne.mpr h1
    have e2 : (py_lower agent_name == "customer_loyalty") = false := beq_eq_false_iff_ne.mpr h2
    have e3 : (py_lower agent_name == "discount_logic") = false := beq_eq_false_iff_ne.mpr h3
    have e4 : (py_lower agent_name == "interior_designer") = false := beq_eq_false_iff_ne.mpr h4
    have e5 : (py_lower agent_name == "inventory") = false := beq_eq_false_iff_ne.mpr h5
    simp only [List.lookup, e1, e2, e3, e4, e5]
    refine ⟨": " ++ agent_name ++
      ". Valid options are: cora, customer_loyalty, discount_logic, interior_designer, inventory",
      ?_⟩
    rw [show ("Unknown agent name: " : String) = "Unknown agent name" ++ ": " from rfl,
        String.append_assoc, String.append_assoc, String.append_assoc]

/-- C4 witness: `agentPrompt` at the concrete names "CORA" (resolves
case-insensitively to the shopper template) and "unknown_agent" (yields the
descriptive unknown-name string). -/
theorem agentPrompt_resolution_witness :
    agentPrompt (fun _ => "TEMPLATE") "CORA" = "TEMPLATE" ∧
    ∃ rest, agentPrompt (fun _ => "TEMPLATE") "unknown_agent" =
      "Unknown agent name" ++ rest :=
  ⟨(agentPrompt_resolution (fun _ => "TEMPLATE") "CORA").1 (by decide),
   (agentPrompt_resolution (fun _ => "TEMPLATE") "unknown_agent").2.2.2.2.2 (by decide)⟩

/-- C6: each of the four server tool handlers returns its collaborator's
value unchanged when that value is already a string, and otherwise returns
its JSON serialization as a string. -/
theorem tool_handlers_serialize
    (product_recommendations : String → PyValue) (inventory_check : PyValue → PyValue)
    (calculate_discount : String → PyValue) (create_image : String → String → PyValue)
    (question product_id customer_id prompt size : String) :
    (∀ s, product_recommendations question = .str s →
      get_product_recommendations product_recommendations question = s) ∧
    ((product_recommendations question).isStr = false →
      get_product_recommendations product_recommendations question =
        json_dumps (product_recommendations question)) ∧
    (∀ s, inventory_check (.dict [("id", .str product_id)]) = .str s →
      check_product_inventory inventory_check product_id = s) ∧
    ((inventory_check (.dict [("id", .str product_id)])).isStr = false →
      check_product_inventory inventory_check product_id =
        json_dumps (inventory_check (.dict [("id", .str product_id)]))) ∧
    (∀ s, calculate_discount customer_id = .str s →
      get_customer_discount calculate_discount customer_id = s) ∧
    ((calculate_discount customer_id).isStr = false →
      get_customer_discount calculate_discount customer_id =
        json_dumps (calculate_discount customer_id)) ∧
    (∀ s, create_image prompt size = .str s →
      generate_product_image create_image prompt size = s) ∧
    ((create_image prompt size).isStr = false →
      generate_product_image create_image prompt size =
        json_dumps (create_image prompt size)) := by
  have key : ∀ v : PyValue,
      (∀ s, v = .str s → serializeResult v = s) ∧
      (v.isStr = false → serializeResult v = json_dumps v) := by
    intro v
    constructor
    · rintro s rfl; rfl
    · intro h
      cases v <;> simp_all [serializeResult, PyValue.isStr]
  exact ⟨(key _).1, (key _).2, (key _).1, (key _).2,
         (key _).1, (key _).2, (key _).1, (key _).2⟩

/-- C6 witness: a string-returning collaborator's value passes through
`get_product_recommendations` unchanged; a dict-returning collaborator's
value leaves `check_product_inventory` as its JSON serialization. -/
theorem tool_handlers_serialize_witness :
    get_product_recommendations (fun _ => .str "plain answer") "q" = "plain answer" ∧
    check_product_inventory
      (fun _ => .dict [("product_id", .str "P1"), ("available", .bool true)]) "P1" =
      "\x7b\"product_id\": \"P1\", \"available\": true\x7d" := by
  have h := tool_handlers_serialize (fun _ => .str "plain answer")
    (fun _ => .dict [("product_id", .str "P1"), ("available", .bool true)])
    (fun _ => .none_) (fun _ _ => .none_) "q" "P1" "c" "p" "1024x1024"
  exact ⟨h.1 "plain answer" rfl, (h.2.2.2.1 rfl).trans rfl⟩

/-- C7: the first call to `get_mcp_client` (global state `None`) constructs
the client from its `server_url` argument with its `available_tools` cache
populated from the tool-listing fetch, and stores it; every later call
returns that same stored instance unchanged, whatever its `server_url`
argument. -/
theorem get_mcp_client_singleton (fetched : List Tool) (url url2 : String)
    (c : MCPShopperToolsClient) :
    (url ≠ "" →
      get_mcp_client fetched url none =
        ({ server_url := url, available_tools := fetched },
         some { server_url := url, available_tools := fetched })) ∧
    get_mcp_client fetched url2 (some c) = (c, some c) := by
  constructor
  · intro h
    simp [get_mcp_client, MCPShopperToolsClient.init, h]
  · rfl

/-- C7 witness: `get_mcp_client` at a concrete URL and fetch result, first
with empty global state, then with the constructed instance stored (and a
different URL argument, which is ignored). -/
theorem get_mcp_client_singleton_witness :
    get_mcp_client [sampleTool] "http://other-host:9000/sse" none =
      ({ server_url := "http://other-host:9000/sse", available_tools := [sampleTool] },
       some { server_url := "http://other-host:9000/sse", available_tools := [sampleTool] }) ∧
    get_mcp_client [] "http://ignored:1/sse"
        (some { server_url := "http://other-host:9000/sse", available_tools := [sampleTool] }) =
      ({ server_url := "http://other-host:9000/sse", available_tools := [sampleTool] },
       some { server_url := "http://other-host:9000/sse", available_tools := [sampleTool] }) :=
  ⟨(get_mcp_client_singleton [sampleTool] "http://other-host:9000/sse" ""
      { server_url := "", available_tools := [] }).1 (by decide),
   (get_mcp_client_singleton [] "x" "http://ignored:1/sse"
      { server_url := "http://other-host:9000/sse", available_tools := [sampleTool] }).2⟩

/-- C8: the unlocked check-then-act in `get_mcp_client` is not serialized:
under the schedule where caller A enters first and suspends at the
tool-listing `await`, caller B then runs to completion, and A resumes,
only one fetch is performed but B returns the shared instance while its
`available_tools` cache is still empty — B does not observe a
fully-populated instance, contradicting the claimed serialization. -/
theorem get_mcp_client_race_unserialized :
    (runInitRace [sampleTool] [true, false, true]).fetchCount = 1 ∧
    (runInitRace [sampleTool] [true, false, true]).pcB = .returned ∧
    (runInitRace [sampleTool] [true, false, true]).obsB = some [] ∧
    (runInitRace [sampleTool] [true, false, true]).obsA = some [sampleTool] ∧
    (runInitRace [sampleTool] [true, false, true]).obsB ≠
      (runInitRace [sampleTool] [true, false, true]).obsA := by
  refine ⟨rfl, rfl, rfl, rfl, ?_⟩
  intro h
  have h2 : ([] : List Tool) = [sampleTool] := Option.some.inj h
  exact absurd (congrArg List.length h2) (by decide)

/-- C9: a client constructed with no URL defaults to an endpoint ending in
`/sse`, but `get_mcp_client`'s own default argument is
`"http://localhost:8000/see"`, so the shared instance obtained with the
default argument uses an endpoint that does not end in `/sse`. -/
theorem default_url_sse_typo :
    (MCPShopperToolsClient.init none).server_url = "http://localhost:8000/sse" ∧
    strEndsWith (MCPShopperToolsClient.init none).server_url "/sse" = true ∧
    get_mcp_client_default_url = "http://localhost:8000/see" ∧
    strEndsWith (get_mcp_client [] get_mcp_client_default_url none).1.server_url "/sse"
      = false := by
  refine ⟨rfl, ?_, rfl, ?_⟩ <;> decide

/-- C5: `get_agent_prompt` returns the empty string and logs a warning
when the prompt response carries no messages, and returns the first
message's content text when it carries at least one. -/
theorem get_agent_prompt_degrade (agent_id : String) (resp : PromptResponse) :
    (resp.messages = [] →
      (get_agent_prompt agent_id resp).2 = "" ∧
      Log.warning ("Prompt '" ++ agent_id ++ "' returned no messages") ∈
        (get_agent_prompt agent_id resp).1) ∧
    (∀ m ms, resp.messages = m :: ms →
      (get_agent_prompt agent_id resp).2 = m.content.text) := by
  constructor
  · intro h
    simp [get_agent_prompt, h]
  · intro m ms h
    simp [get_agent_prompt, h]

/-- C5 witness: `get_agent_prompt` at a concrete empty response (empty
string plus warning) and at a concrete one-message response (that
message's text). -/
theorem get_agent_prompt_degrade_witness :
    (get_agent_prompt "cora" { messages := [] }).2 = "" ∧
    Log.warning "Prompt 'cora' returned no messages" ∈
      (get_agent_prompt "cora" { messages := [] }).1 ∧
    (get_agent_prompt "cora"
        { messages := [{ content := { text := "You are Cora." } }] }).2 = "You are Cora." := by
  have h1 := (get_agent_prompt_degrade "cora" { messages := [] }).1 rfl
  have h2 := (get_agent_prompt_degrade "cora"
    { messages := [{ content := { text := "You are Cora." } }] }).2
    { content := { text := "You are Cora." } } [] rfl
  exact ⟨h1.1, h1.2, h2⟩

end MCPBroker
